import Mathlib

/-!
Shallow embedding of the two Lightning web components of the
`accountAnalysisApp` repository:

* `src/force-app/main/default/lwc/accountAnalysisApp/accountAnalysisApp.js`
  contains two classes: `AccountAnalysisApp` (the page shell, embedded in
  namespace `Shell`) and `AccountRelationshipHealth` (the health panel,
  embedded in namespace `Health`).
* `src/force-app/main/default/lwc/accountResearch/accountResearch.js`
  contains `AccountResearch` (the research panel, embedded in namespace
  `Research`).

JavaScript values are modelled as follows: strings as `String`, possibly
null/undefined strings as `Option String` (`none` = null/undefined),
numbers as `ℚ` (or `Option ℚ` / `Option Nat` where null is possible),
truthiness by the `strTruthy` / `natTruthy` / `qTruthy` / `intTruthy`
helpers (empty string and zero are falsy, like in JS).  Methods become
pure functions from the component state to a new state paired with the
observable effects they produce (toasts dispatched, remote calls issued,
timers scheduled).  `setTimeout`/`setInterval` callbacks are modelled as
explicit data (a scheduled-task value or an active-interval flag) plus a
separate function that runs the callback body.
-/

/-- JS truthiness of a possibly null/undefined string:
null, undefined and the empty string are falsy. -/
def strTruthy : Option String → Bool
  | some s => s ≠ ""
  | none => false

/-- JS truthiness of a possibly null/undefined natural number: 0 is falsy. -/
def natTruthy : Option Nat → Bool
  | some n => n ≠ 0
  | none => false

/-- JS truthiness of a possibly null/undefined number: 0 is falsy. -/
def qTruthy : Option ℚ → Bool
  | some q => q ≠ 0
  | none => false

/-- JS truthiness of a possibly null/undefined integer: 0 is falsy. -/
def intTruthy : Option Int → Bool
  | some n => n ≠ 0
  | none => false

/-- JS `a || b` on possibly-null strings: returns `a` when truthy, else `b`. -/
def jsOr (a b : Option String) : Option String :=
  if strTruthy a then a else b

/-- JS `a || b` where `b` is a plain (non-null) string. -/
def jsOrS (a : Option String) (b : String) : String :=
  if strTruthy a then a.getD "" else b

/-- A toast dispatched through `ShowToastEvent`: `{title, message, variant}`. -/
structure Toast where
  title : String
  message : String
  variant : String
deriving DecidableEq, Repr

namespace Research

/-- `facts` sub-record of the research payload (`LeadCompanyResearchResult`). -/
structure Facts where
  industry : Option String
  headquarters : Option String
  foundedYear : Option Int
  employeeCountRange : Option String
  keyProducts : Option String
  targetMarket : Option String
  keyExecutives : Option String
  website : Option String
  recentNews : Option String
  recentNewsUrl : Option String
  growthIndicators : Option String
deriving DecidableEq, Repr

/-- `links` sub-record of the research payload. -/
structure Links where
  websiteUrl : Option String
  linkedinUrl : Option String
  newsSearchUrl : Option String
deriving DecidableEq, Repr

/-- One entry of the `headlines` array of the research payload. -/
structure Headline where
  title : Option String
  url : Option String
deriving DecidableEq, Repr

/-- The research payload (`LeadCompanyResearchResult`): each sub-record may be
absent, and individual headline entries may be null. -/
structure ResearchData where
  overview : Option String
  facts : Option Facts
  links : Option Links
  headlines : Option (List (Option Headline))
deriving DecidableEq, Repr

/-- `escapeHtml(text)` from accountResearch.js lines 319-326.  The method
guards falsy input, then puts `text` into a DOM text node, appends it to a
detached `div`, and returns `div.textContent`.  Reading back `textContent`
(rather than `innerHTML`) yields the original string unchanged, so the
DOM round-trip is the identity: only the falsy guard has any effect and no
HTML special character is escaped. -/
def escapeHtml (text : Option String) : String :=
  if strTruthy text then text.getD "" else ""

/-- `formatDataAsHtml()` from accountResearch.js lines 211-317, as a function
of the `this.data` field. -/
def formatDataAsHtml (data : Option ResearchData) : String :=
  match data with
  | none => ""
  | some data =>
    let html := ""
    -- Company Overview
    let html := if strTruthy data.overview then
        html ++ "<h3>Company Overview</h3>"
          ++ "<p>" ++ escapeHtml data.overview ++ "</p>"
      else html
    -- Company Snapshot
    let html := match data.facts with
      | none => html
      | some facts =>
        let html := html ++ "<br/><h3>Company Snapshot</h3>" ++ "<ul>"
        let html := if strTruthy facts.industry then
            html ++ "<li><strong>Industry:</strong> "
              ++ escapeHtml facts.industry ++ "</li>"
          else html
        let html := if strTruthy facts.headquarters then
            html ++ "<li><strong>Headquarters:</strong> "
              ++ escapeHtml facts.headquarters ++ "</li>"
          else html
        let html := if intTruthy facts.foundedYear then
            html ++ "<li><strong>Founded:</strong> "
              ++ toString (facts.foundedYear.getD 0) ++ "</li>"
          else html
        let html := if strTruthy facts.employeeCountRange then
            html ++ "<li><strong>Employees:</strong> "
              ++ escapeHtml facts.employeeCountRange ++ "</li>"
          else html
        let html := if strTruthy facts.keyProducts then
            html ++ "<li><strong>Key Products:</strong> "
              ++ escapeHtml facts.keyProducts ++ "</li>"
          else html
        let html := if strTruthy facts.targetMarket then
            html ++ "<li><strong>Target Market:</strong> "
              ++ escapeHtml facts.targetMarket ++ "</li>"
          else html
        let html := if strTruthy facts.keyExecutives then
            html ++ "<li><strong>Key Executives:</strong> "
              ++ escapeHtml facts.keyExecutives ++ "</li>"
          else html
        let html := if strTruthy facts.website then
            let w := facts.website.getD ""
            let websiteUrl := if w.startsWith "http" then w else "https://" ++ w
            html ++ "<li><strong>Website:</strong> <a href=\""
              ++ escapeHtml (some websiteUrl)
              ++ "\" target=\"_blank\" rel=\"noopener\">"
              ++ escapeHtml facts.website ++ "</a></li>"
          else html
        html ++ "</ul>"
    -- Recent News
    let html := match data.facts with
      | none => html
      | some facts =>
        if strTruthy facts.recentNews then
          let html := html ++ "<br/><h3>Recent News</h3>"
          if strTruthy facts.recentNewsUrl then
            html ++ "<p><a href=\"" ++ escapeHtml facts.recentNewsUrl
              ++ "\" target=\"_blank\" rel=\"noopener\">"
              ++ escapeHtml facts.recentNews ++ "</a></p>"
          else
            html ++ "<p>" ++ escapeHtml facts.recentNews ++ "</p>"
        else html
    -- Growth Indicators
    let html := match data.facts with
      | none => html
      | some facts =>
        if strTruthy facts.growthIndicators then
          html ++ "<br/><h3>Growth Indicators</h3>"
            ++ "<p>" ++ escapeHtml facts.growthIndicators ++ "</p>"
        else html
    -- Quick Links
    let html := match data.links with
      | none => html
      | some links =>
        if strTruthy links.websiteUrl || strTruthy links.linkedinUrl
            || strTruthy links.newsSearchUrl then
          let html := html ++ "<br/><h3>Quick Links</h3>" ++ "<ul>"
          let html := if strTruthy links.websiteUrl then
              html ++ "<li><a href=\"" ++ escapeHtml links.websiteUrl
                ++ "\" target=\"_blank\" rel=\"noopener\">Company Website</a></li>"
            else html
          let html := if strTruthy links.linkedinUrl then
              html ++ "<li><a href=\"" ++ escapeHtml links.linkedinUrl
                ++ "\" target=\"_blank\" rel=\"noopener\">LinkedIn Profile</a></li>"
            else html
          let html := if strTruthy links.newsSearchUrl then
              html ++ "<li><a href=\"" ++ escapeHtml links.newsSearchUrl
                ++ "\" target=\"_blank\" rel=\"noopener\">Recent News</a></li>"
            else html
          html ++ "</ul>"
        else html
    -- Recent Headlines
    let html := match data.headlines with
      | none => html
      | some headlines =>
        if headlines.length > 0 then
          let html := html ++ "<br/><h3>Recent Headlines</h3>" ++ "<ul>"
          let html := headlines.foldl (fun html headline =>
            match headline with
            | none => html
            | some h =>
              if strTruthy h.title then
                if strTruthy h.url then
                  html ++ "<li><a href=\"" ++ escapeHtml h.url
                    ++ "\" target=\"_blank\" rel=\"noopener\">"
                    ++ escapeHtml h.title ++ "</a></li>"
                else
                  html ++ "<li>" ++ escapeHtml h.title ++ "</li>"
              else html) html
          html ++ "</ul>"
        else html
    html

/-- The mutable fields of the `AccountResearch` component.  `recordId` is the
host-provided record context (`@api recordId`); `_accountId` is the private
backing property of the `accountId` getter/setter.  An active
`setInterval` handle is modelled as the boolean `loadingMessageInterval`
(`true` = a live interval, `false` = null). -/
structure State where
  recordId : Option String
  _accountId : Option String
  isLoading : Bool
  isSaving : Bool
  hasError : Bool
  errorMessage : String
  data : Option ResearchData
  currentLoadingMessage : String
  loadingMessageInterval : Bool
  loadingMessageIndex : Nat
  _analysisTrigger : Option Nat
  previousTrigger : Option Nat
  previousAccountId : Option String
deriving DecidableEq, Repr

/-- The component's initial field values (class-field initializers). -/
def initialState : State where
  recordId := none
  _accountId := none
  isLoading := false
  isSaving := false
  hasError := false
  errorMessage := ""
  data := none
  currentLoadingMessage := ""
  loadingMessageInterval := false
  loadingMessageIndex := 0
  _analysisTrigger := none
  previousTrigger := none
  previousAccountId := none

/-- The fixed ordered list `loadingMessages`. -/
def loadingMessages : List String :=
  [ "Researching company with Agentforce..."
  , "Gathering web search results..."
  , "Analyzing company information..."
  , "Extracting key insights..."
  , "Identifying growth opportunities..."
  , "Compiling research summary..." ]

/-- `get currentAccountId()`: `this.accountId || this.recordId`. -/
def currentAccountId (s : State) : Option String :=
  jsOr s._accountId s.recordId

/-- `startLoadingMessages()`: reset the index to 0, show the first message,
and start the 3-second rotation interval. -/
def startLoadingMessages (s : State) : State :=
  { s with loadingMessageIndex := 0
         , currentLoadingMessage := loadingMessages.getD 0 ""
         , loadingMessageInterval := true }

/-- `stopLoadingMessages()`: clear the interval (if any) and blank the
current message. -/
def stopLoadingMessages (s : State) : State :=
  { s with loadingMessageInterval := false, currentLoadingMessage := "" }

/-- The body of the `setInterval` callback inside `startLoadingMessages`:
it only runs while the interval is live (a cleared interval fires no more
callbacks), and advances the message index cyclically. -/
def rotateTick (s : State) : State :=
  if s.loadingMessageInterval then
    let i := (s.loadingMessageIndex + 1) % loadingMessages.length
    { s with loadingMessageIndex := i
           , currentLoadingMessage := loadingMessages.getD i "" }
  else s

/-- `disconnectedCallback()`: clean up the interval on teardown. -/
def disconnectedCallback (s : State) : State :=
  stopLoadingMessages s

/-- `set accountId(value)` (accountResearch.js lines 47-62).  Returns the new
state together with the value captured by the scheduled 100 ms timeout
(`some value` when a deferred refresh was scheduled, `none` otherwise). -/
def setAccountId (s : State) (value : Option String) :
    State × Option (Option String) :=
  let oldValue := s._accountId
  let s := { s with _accountId := value }
  if strTruthy value ∧ value ≠ oldValue ∧ value ≠ s.previousAccountId then
    ({ s with previousAccountId := value }, some value)
  else
    (s, none)

/-- Whether the deferred callback scheduled by the `accountId` setter calls
`handleResearch` when it fires: it re-checks `currentAccountId === value`
against the state at fire time. -/
def accountTaskFires (s : State) (value : Option String) : Bool :=
  currentAccountId s = value

/-- `set analysisTrigger(value)` (accountResearch.js lines 69-78).  Returns
the new state and the number of deferred `handleResearch` calls scheduled
(0 or 1). -/
def setAnalysisTrigger (s : State) (value : Option Nat) : State × Nat :=
  if natTruthy value ∧ value ≠ s.previousTrigger
      ∧ strTruthy (currentAccountId s) then
    ({ s with previousTrigger := value, _analysisTrigger := value }, 1)
  else
    ({ s with _analysisTrigger := value }, 0)

/-- The synchronous part of `handleResearch()` (lines 105-139): set the
loading state, start the message ticker, then either fail fast when no
account id resolves (returning `none`: no remote call) or issue the
`getCompanyResearch` call with the resolved id (returning `some id`). -/
def handleResearch (s : State) : State × Option String :=
  let s := { s with isLoading := true, hasError := false, errorMessage := "" }
  let s := startLoadingMessages s
  let accountIdToUse := currentAccountId s
  if strTruthy accountIdToUse then
    (s, accountIdToUse)
  else
    (stopLoadingMessages
      { s with hasError := true
             , errorMessage := "No account ID provided."
             , isLoading := false }, none)

/-- The `.then` continuation of `getCompanyResearch` plus the `.finally`
block: store the result, toast an info notice for an empty/missing payload,
clear the loading flag and stop the ticker. -/
def researchResolve (s : State) (result : Option ResearchData) :
    State × List Toast :=
  let s := { s with data := result }
  let toasts :=
    if !(result.isSome) || !(strTruthy ((result.bind ResearchData.overview))) then
      [⟨"Info", "No research results returned.", "info"⟩]
    else []
  (stopLoadingMessages { s with isLoading := false }, toasts)

/-- The `.catch` continuation of `getCompanyResearch` plus the `.finally`
block.  `emsg` stands for `error?.body?.message || error?.message`. -/
def researchReject (s : State) (emsg : Option String) : State × List Toast :=
  let msg := jsOrS emsg "Unable to research this account."
  let s := { s with hasError := true, errorMessage := msg }
  (stopLoadingMessages { s with isLoading := false },
   [⟨"Error", msg, "error"⟩])

/-- The synchronous part of `handleSaveToRecord()` (lines 184-209): set the
saving flag, serialize the displayed data, then either fail fast with an
error toast when no account id resolves (no remote call) or issue the
`saveCompanyResearch` call with `(accountId, htmlContent)`. -/
def handleSaveToRecord (s : State) :
    State × List Toast × Option (String × String) :=
  let s := { s with isSaving := true }
  let htmlContent := formatDataAsHtml s.data
  let accountIdToUse := currentAccountId s
  if strTruthy accountIdToUse then
    (s, [], some (accountIdToUse.getD "", htmlContent))
  else
    ({ s with isSaving := false },
     [⟨"Error", "No account ID provided.", "error"⟩], none)

/-- The `.then` continuation of `saveCompanyResearch` plus its `.finally`. -/
def saveResolve (s : State) (result : String) : State × List Toast :=
  ({ s with isSaving := false }, [⟨"Success", result, "success"⟩])

/-- The `.catch` continuation of `saveCompanyResearch` plus its `.finally`.
`emsg` stands for `error?.body?.message || error?.message`. -/
def saveReject (s : State) (emsg : Option String) : State × List Toast :=
  ({ s with isSaving := false },
   [⟨"Error", jsOrS emsg "Unable to save account research.", "error"⟩])

end Research

namespace Shell

/-- The mutable fields of the `AccountAnalysisApp` page shell. -/
structure State where
  selectedAccountId : Option String
  selectedAccountName : Option String
  isAnalyzing : Bool
  analysisTrigger : Nat
deriving DecidableEq, Repr

/-- The shell's initial field values (class-field initializers):
`analysisTrigger = 0`. -/
def initialState : State where
  selectedAccountId := none
  selectedAccountName := none
  isAnalyzing := false
  analysisTrigger := 0

/-- `triggerAnalysis()` (accountAnalysisApp.js lines 92-106), with the wall
clock (`Date.now()`) passed in as `now`.  Returns the new state and whether
the 500 ms busy-flag reset timeout was scheduled. -/
def triggerAnalysis (s : State) (now : Nat) : State × Bool :=
  if strTruthy s.selectedAccountId then
    ({ s with isAnalyzing := true, analysisTrigger := now }, true)
  else
    (s, false)

/-- The body of the 500 ms timeout scheduled by `triggerAnalysis`. -/
def resetIsAnalyzing (s : State) : State :=
  { s with isAnalyzing := false }

/-- `handleAnalyze()` (lines 110-118): toast an error and do nothing else
when no account is selected, otherwise call `triggerAnalysis`.  Returns the
new state, the toasts dispatched, and whether the busy-reset timeout was
scheduled. -/
def handleAnalyze (s : State) (now : Nat) : State × List Toast × Bool :=
  if strTruthy s.selectedAccountId then
    let (s, timer) := triggerAnalysis s now
    (s, [], timer)
  else
    (s, [⟨"Error", "Please select an account first", "error"⟩], false)

end Shell

namespace Health

/-- `metrics` sub-record of the health payload.  All fields are optionally
absent; the case-count getters null-coalesce them to 0. -/
structure Metrics where
  closedWonACV : Option ℚ
  closedLostACV : Option ℚ
  openCases : Option ℚ
  closedCases : Option ℚ
  caseCount : Option ℚ
  highPriorityOpenCases : Option ℚ
deriving DecidableEq, Repr

/-- The `healthData` view model stored by the `.then` handler: `keyInsights`
and `recommendedActions` have already been null-coalesced to `[]`.
The score is taken to be a number (the getters read it without a guard). -/
structure HealthData where
  healthStatus : Option String
  score : ℚ
  trend : Option String
  keyInsights : List String
  recommendedActions : List String
deriving DecidableEq, Repr

/-- The raw payload returned by `getRelationshipHealth`. -/
structure HealthResult where
  healthStatus : Option String
  score : ℚ
  trend : Option String
  keyInsights : Option (List String)
  recommendedActions : Option (List String)
  metrics : Option Metrics
  errorMessage : Option String
deriving DecidableEq, Repr

/-- The mutable fields of the `AccountRelationshipHealth` component. -/
structure State where
  recordId : Option String
  _accountId : Option String
  healthData : Option HealthData
  metrics : Option Metrics
  isLoading : Bool
  hasError : Bool
  errorMessage : String
  _analysisTrigger : Option Nat
  previousTrigger : Option Nat
  previousAccountId : Option String
deriving DecidableEq, Repr

/-- The component's initial field values (class-field initializers). -/
def initialState : State where
  recordId := none
  _accountId := none
  healthData := none
  metrics := none
  isLoading := false
  hasError := false
  errorMessage := ""
  _analysisTrigger := none
  previousTrigger := none
  previousAccountId := none

/-- `get currentAccountId()`: `this.accountId || this.recordId`. -/
def currentAccountId (s : State) : Option String :=
  jsOr s._accountId s.recordId

/-- `set accountId(value)` (accountAnalysisApp.js lines 170-185).  Returns
the new state together with the value captured by the scheduled 100 ms
timeout (`some value` when a deferred refresh was scheduled). -/
def setAccountId (s : State) (value : Option String) :
    State × Option (Option String) :=
  let oldValue := s._accountId
  let s := { s with _accountId := value }
  if strTruthy value ∧ value ≠ oldValue ∧ value ≠ s.previousAccountId then
    ({ s with previousAccountId := value }, some value)
  else
    (s, none)

/-- Whether the deferred callback scheduled by the `accountId` setter calls
`handleRefresh` when it fires: it re-checks `currentAccountId === value`. -/
def accountTaskFires (s : State) (value : Option String) : Bool :=
  currentAccountId s = value

/-- `set analysisTrigger(value)` (lines 192-201).  Returns the new state and
the number of deferred `handleRefresh` calls scheduled (0 or 1). -/
def setAnalysisTrigger (s : State) (value : Option Nat) : State × Nat :=
  if natTruthy value ∧ value ≠ s.previousTrigger
      ∧ strTruthy (currentAccountId s) then
    ({ s with previousTrigger := value, _analysisTrigger := value }, 1)
  else
    ({ s with _analysisTrigger := value }, 0)

/-- The synchronous part of `handleRefresh()` (lines 207-251): set the
loading state, then either fail fast when no account id resolves (`none`:
no remote call) or issue the `getRelationshipHealth` call (`some id`). -/
def handleRefresh (s : State) : State × Option String :=
  let s := { s with isLoading := true, hasError := false, errorMessage := "" }
  let accountIdToUse := currentAccountId s
  if strTruthy accountIdToUse then
    (s, accountIdToUse)
  else
    ({ s with hasError := true
            , errorMessage := "No account ID provided."
            , isLoading := false }, none)

/-- The `.then` continuation of `getRelationshipHealth` plus the `.finally`
block: store the shaped health data and metrics; when the payload carries a
truthy `errorMessage`, set the error state and toast a warning. -/
def healthResolve (s : State) (result : HealthResult) : State × List Toast :=
  let s := { s with
    healthData := some
      { healthStatus := result.healthStatus
      , score := result.score
      , trend := result.trend
      , keyInsights := result.keyInsights.getD []
      , recommendedActions := result.recommendedActions.getD [] }
    , metrics := result.metrics }
  if strTruthy result.errorMessage then
    ({ s with hasError := true
            , errorMessage := result.errorMessage.getD ""
            , isLoading := false },
     [⟨"Warning", result.errorMessage.getD "", "warning"⟩])
  else
    ({ s with isLoading := false }, [])

/-- The `.catch` continuation of `getRelationshipHealth` plus the `.finally`
block.  `emsg` stands for `error.body?.message || error.message`; when both
are absent, JS string concatenation renders the literal `undefined`. -/
def healthReject (s : State) (emsg : Option String) : State × List Toast :=
  ({ s with hasError := true
          , errorMessage := "Unable to load relationship health data."
          , isLoading := false },
   [⟨"Error",
     "Failed to load relationship health: " ++ emsg.getD "undefined",
     "error"⟩])

/-- `get hasData()`: `this.healthData && !this.isLoading`. -/
def hasData (s : State) : Bool :=
  s.healthData.isSome && !s.isLoading

/-- `get showEmptyState()`. -/
def showEmptyState (s : State) : Bool :=
  !s.isLoading && !(hasData s) && !s.hasError

/-- `get healthEmoji()` as a function of the stored `healthData`. -/
def healthEmoji (hd : Option HealthData) : String :=
  match hd with
  | none => "❓"
  | some h =>
    if h.healthStatus = some "Excellent" then "🌟"
    else if h.healthStatus = some "Good" then "✅"
    else if h.healthStatus = some "Moderate" then "⚠️"
    else if h.healthStatus = some "At Risk" then "🔴"
    else if h.healthStatus = some "Critical" then "🚨"
    else "❓"

/-- JS `s.replace(pat, rep)`: replace only the first occurrence. -/
def replaceFirst (s pat rep : String) : String :=
  match s.splitOn pat with
  | [] => s
  | [x] => x
  | x :: rest => x ++ rep ++ String.intercalate pat rest

/-- `get healthStatusClass()`: lower-case the status, replace the first
space with a dash, fall back to `"unknown"` when the result is falsy. -/
def healthStatusClass (hd : Option HealthData) : String :=
  match hd with
  | none => "unknown"
  | some h =>
    match h.healthStatus with
    | none => "unknown"
    | some st =>
      let status := replaceFirst st.toLower " " "-"
      if status = "" then "unknown" else status

/-- `get trendIcon()`. -/
def trendIcon (hd : Option HealthData) : String :=
  match hd with
  | none => "utility:forward"
  | some h =>
    if h.trend = some "Improving" then "utility:arrowup"
    else if h.trend = some "Declining" then "utility:arrowdown"
    else if h.trend = some "Stable" then "utility:forward"
    else "utility:forward"

/-- `get trendClass()`. -/
def trendClass (hd : Option HealthData) : String :=
  match hd with
  | none => ""
  | some h =>
    if h.trend = some "Improving" then "trend-improving"
    else if h.trend = some "Declining" then "trend-declining"
    else if h.trend = some "Stable" then "trend-stable"
    else ""

/-- `get scoreColor()`: bucket the 0-100 score into four colors. -/
def scoreColor (hd : Option HealthData) : String :=
  match hd with
  | none => "#dddbda"
  | some h =>
    if h.score ≥ 80 then "#4bca81"
    else if h.score ≥ 60 then "#ffb75d"
    else if h.score ≥ 40 then "#fe9339"
    else "#ea001e"

/-- `get progressDashArray()`: the source computes `2 * Math.PI * 70`.
Every gauge length in the component is a rational multiple of π, so
lengths are embedded as their rational coefficient of π: this constant
stands for `2 * 70` in units of π. -/
def progressDashArray : ℚ := 2 * 70

/-- `get progressDashOffset()`: `circumference * (1 - score / 100)`, in the
same units of π as `progressDashArray`; the full circumference when no
payload is stored. -/
def progressDashOffset (hd : Option HealthData) : ℚ :=
  match hd with
  | none => progressDashArray
  | some h => progressDashArray * (1 - h.score / 100)

/-- The integer `n` chosen by `Number.prototype.toFixed`: the nearest, with
ties resolved to the larger candidate, which is `⌊q + 1/2⌋`.  (The sign of
a negative value rounding to zero is not modelled.) -/
def jsRound (q : ℚ) : ℤ := ⌊q + 1 / 2⌋

/-- `x.toFixed(1)` for the rational values this component produces. -/
def toFixed1 (q : ℚ) : String :=
  let n := jsRound (q * 10)
  if n < 0 then
    "-" ++ toString ((-n).toNat / 10) ++ "." ++ toString ((-n).toNat % 10)
  else
    toString (n.toNat / 10) ++ "." ++ toString (n.toNat % 10)

/-- `x.toFixed(0)` for the rational values this component produces. -/
def toFixed0 (q : ℚ) : String :=
  toString (jsRound q)

/-- `formatCurrency(value)` (accountAnalysisApp.js lines 358-365). -/
def formatCurrency (value : ℚ) : String :=
  if value ≥ 1000000 then
    "$" ++ toFixed1 (value / 1000000) ++ "M"
  else if value ≥ 1000 then
    "$" ++ toFixed1 (value / 1000) ++ "K"
  else
    "$" ++ toFixed0 value

/-- `get closedWonACVFormatted()`: `"$0"` when the metrics record or the
value is falsy (absent or zero), else the abbreviated currency. -/
def closedWonACVFormatted (metrics : Option Metrics) : String :=
  match metrics with
  | none => "$0"
  | some m =>
    if qTruthy m.closedWonACV then formatCurrency (m.closedWonACV.getD 0)
    else "$0"

/-- `get closedLostACVFormatted()`. -/
def closedLostACVFormatted (metrics : Option Metrics) : String :=
  match metrics with
  | none => "$0"
  | some m =>
    if qTruthy m.closedLostACV then formatCurrency (m.closedLostACV.getD 0)
    else "$0"

/-- JS `a || b` on a possibly-absent number with a plain default. -/
def jsOrQ (a : Option ℚ) (b : ℚ) : ℚ :=
  if qTruthy a then a.getD 0 else b

/-- `get caseOpenCount()`: `this.metrics?.openCases || 0`. -/
def caseOpenCount (metrics : Option Metrics) : ℚ :=
  jsOrQ (metrics.bind Metrics.openCases) 0

/-- `get caseClosedCount()`. -/
def caseClosedCount (metrics : Option Metrics) : ℚ :=
  jsOrQ (metrics.bind Metrics.closedCases) 0

/-- `get caseTotalCount()`. -/
def caseTotalCount (metrics : Option Metrics) : ℚ :=
  jsOrQ (metrics.bind Metrics.caseCount) 0

/-- `get caseHighPriorityOpen()`. -/
def caseHighPriorityOpen (metrics : Option Metrics) : ℚ :=
  jsOrQ (metrics.bind Metrics.highPriorityOpenCases) 0

/-- `get showHighPriorityWarning()`. -/
def showHighPriorityWarning (metrics : Option Metrics) : Bool :=
  caseHighPriorityOpen metrics > 0

end Health

/-! ## Claims -/

/-- A research payload whose company overview is a literal script tag. -/
def scriptPayload : Research.ResearchData :=
  { overview := some "<script>alert(1)</script>"
  , facts := none
  , links := none
  , headlines := none }

/-- C1: the claim states that `formatDataAsHtml` escapes HTML special
characters in interpolated text to literal entities (e.g. `&lt;script&gt;`).
The code contradicts its own comment ("safely escape HTML special
characters"): `escapeHtml` reads back `div.textContent`, which returns the
input unchanged, so a company overview of `<script>alert(1)</script>` is
emitted verbatim as executable markup inside the saved HTML fragment. -/
theorem c1_formatDataAsHtml_emits_unescaped_script :
    Research.escapeHtml (some "<script>alert(1)</script>")
      = "<script>alert(1)</script>"
    ∧ Research.formatDataAsHtml (some scriptPayload)
      = "<h3>Company Overview</h3><p><script>alert(1)</script></p>"
    ∧ Research.formatDataAsHtml (some scriptPayload)
      ≠ "<h3>Company Overview</h3><p>&lt;script&gt;alert(1)&lt;/script&gt;</p>" := by
  refine ⟨rfl, rfl, ?_⟩
  decide

/-- A health payload that resolves successfully but carries a soft error. -/
def softErrorResult : Health.HealthResult :=
  { healthStatus := some "Good"
  , score := 70
  , trend := some "Stable"
  , keyInsights := none
  , recommendedActions := none
  , metrics := none
  , errorMessage := some "Partial data unavailable" }

/-- C2 as stated is false: after a successful resolve whose payload carries
the non-empty `errorMessage` "Partial data unavailable", `hasError` does not
remain `false` — the `.then` handler sets it to `true`. -/
theorem c2_counterexample_hasError_set :
    ¬ ((Health.healthResolve Health.initialState softErrorResult).1.hasError
        = false) := by
  decide

/-- C2 (amended): for every health fetch that resolves successfully but
whose payload carries a non-empty `errorMessage`, the handler surfaces a
warning notification and populates the stored health data and metrics from
the payload, but it also sets the hard-failure state: `hasError` becomes
`true` and `errorMessage` is copied from the payload; the loading flag ends
cleared. -/
theorem c2_soft_error_warns_and_sets_error_state
    (s : Health.State) (result : Health.HealthResult)
    (h : strTruthy result.errorMessage = true) :
    (Health.healthResolve s result).1.hasError = true
    ∧ (Health.healthResolve s result).1.errorMessage
        = result.errorMessage.getD ""
    ∧ (Health.healthResolve s result).2
        = [⟨"Warning", result.errorMessage.getD "", "warning"⟩]
    ∧ (Health.healthResolve s result).1.healthData = some
        { healthStatus := result.healthStatus
        , score := result.score
        , trend := result.trend
        , keyInsights := result.keyInsights.getD []
        , recommendedActions := result.recommendedActions.getD [] }
    ∧ (Health.healthResolve s result).1.metrics = result.metrics
    ∧ (Health.healthResolve s result).1.isLoading = false := by
  simp [Health.healthResolve, h]

/-- Witness for the amended C2 at the concrete soft-error payload. -/
theorem c2_soft_error_witness :
    strTruthy softErrorResult.errorMessage = true
    ∧ (Health.healthResolve Health.initialState softErrorResult).1.hasError
        = true :=
  ⟨by decide,
   (c2_soft_error_warns_and_sets_error_state Health.initialState softErrorResult
     (by decide)).1⟩

/-- Case analysis for the health panel's trigger setter: either the guard
holds and a refresh is scheduled with `previousTrigger` recorded, or it does
not and only the backing trigger field is written. -/
theorem health_setTrigger_cases (s : Health.State) (v : Option Nat) :
    (Health.setAnalysisTrigger s v
        = ({ s with previousTrigger := v, _analysisTrigger := v }, 1)
      ∧ (natTruthy v = true ∧ v ≠ s.previousTrigger
          ∧ strTruthy (Health.currentAccountId s) = true))
    ∨ (Health.setAnalysisTrigger s v = ({ s with _analysisTrigger := v }, 0)
      ∧ ¬(natTruthy v = true ∧ v ≠ s.previousTrigger
          ∧ strTruthy (Health.currentAccountId s) = true)) := by
  by_cases h : natTruthy v = true ∧ v ≠ s.previousTrigger
      ∧ strTruthy (Health.currentAccountId s) = true
  · exact Or.inl ⟨by simp [Health.setAnalysisTrigger, h], h⟩
  · exact Or.inr ⟨by simp [Health.setAnalysisTrigger, h], h⟩

/-- Case analysis for the research panel's trigger setter. -/
theorem research_setTrigger_cases (s : Research.State) (v : Option Nat) :
    (Research.setAnalysisTrigger s v
        = ({ s with previousTrigger := v, _analysisTrigger := v }, 1)
      ∧ (natTruthy v = true ∧ v ≠ s.previousTrigger
          ∧ strTruthy (Research.currentAccountId s) = true))
    ∨ (Research.setAnalysisTrigger s v = ({ s with _analysisTrigger := v }, 0)
      ∧ ¬(natTruthy v = true ∧ v ≠ s.previousTrigger
          ∧ strTruthy (Research.currentAccountId s) = true)) := by
  by_cases h : natTruthy v = true ∧ v ≠ s.previousTrigger
      ∧ strTruthy (Research.currentAccountId s) = true
  · exact Or.inl ⟨by simp [Research.setAnalysisTrigger, h], h⟩
  · exact Or.inr ⟨by simp [Research.setAnalysisTrigger, h], h⟩

/-- C3: in both panels, one run of the `analysisTrigger` setter schedules at
most one refresh; it schedules zero refreshes when the assigned value equals
the last one observed (the tracked `previousTrigger`); it schedules zero
refreshes for the initial zero/undefined value; and immediately re-assigning
the same value schedules zero further refreshes, so each distinct new value
yields at most one refresh. -/
theorem c3_trigger_setter_dedup
    (hs : Health.State) (rs : Research.State) (v : Option Nat) :
    ((Health.setAnalysisTrigger hs v).2 ≤ 1
      ∧ (v = hs.previousTrigger → (Health.setAnalysisTrigger hs v).2 = 0)
      ∧ (natTruthy v = false → (Health.setAnalysisTrigger hs v).2 = 0)
      ∧ (Health.setAnalysisTrigger (Health.setAnalysisTrigger hs v).1 v).2 = 0)
    ∧ ((Research.setAnalysisTrigger rs v).2 ≤ 1
      ∧ (v = rs.previousTrigger → (Research.setAnalysisTrigger rs v).2 = 0)
      ∧ (natTruthy v = false → (Research.setAnalysisTrigger rs v).2 = 0)
      ∧ (Research.setAnalysisTrigger (Research.setAnalysisTrigger rs v).1 v).2
          = 0) := by
  constructor
  · refine ⟨?_, ?_, ?_, ?_⟩
    · by_cases h : natTruthy v = true ∧ v ≠ hs.previousTrigger
          ∧ strTruthy (Health.currentAccountId hs) = true <;>
        simp [Health.setAnalysisTrigger, h]
    · intro h
      simp [Health.setAnalysisTrigger, h]
    · intro h
      simp [Health.setAnalysisTrigger, h]
    · rcases health_setTrigger_cases hs v with ⟨heq, _⟩ | ⟨heq, hc⟩
      · rw [heq]
        show (Health.setAnalysisTrigger
          { hs with previousTrigger := v, _analysisTrigger := v } v).2 = 0
        rcases health_setTrigger_cases
            { hs with previousTrigger := v, _analysisTrigger := v } v with
          ⟨_, hc2⟩ | ⟨heq2, _⟩
        · exact (hc2.2.1 rfl).elim
        · rw [heq2]
      · rw [heq]
        show (Health.setAnalysisTrigger
          { hs with _analysisTrigger := v } v).2 = 0
        rcases health_setTrigger_cases { hs with _analysisTrigger := v } v with
          ⟨_, hc2⟩ | ⟨heq2, _⟩
        · exact (hc hc2).elim
        · rw [heq2]
  · refine ⟨?_, ?_, ?_, ?_⟩
    · by_cases h : natTruthy v = true ∧ v ≠ rs.previousTrigger
          ∧ strTruthy (Research.currentAccountId rs) = true <;>
        simp [Research.setAnalysisTrigger, h]
    · intro h
      simp [Research.setAnalysisTrigger, h]
    · intro h
      simp [Research.setAnalysisTrigger, h]
    · rcases research_setTrigger_cases rs v with ⟨heq, _⟩ | ⟨heq, hc⟩
      · rw [heq]
        show (Research.setAnalysisTrigger
          { rs with previousTrigger := v, _analysisTrigger := v } v).2 = 0
        rcases research_setTrigger_cases
            { rs with previousTrigger := v, _analysisTrigger := v } v with
          ⟨_, hc2⟩ | ⟨heq2, _⟩
        · exact (hc2.2.1 rfl).elim
        · rw [heq2]
      · rw [heq]
        show (Research.setAnalysisTrigger
          { rs with _analysisTrigger := v } v).2 = 0
        rcases research_setTrigger_cases { rs with _analysisTrigger := v } v with
          ⟨_, hc2⟩ | ⟨heq2, _⟩
        · exact (hc hc2).elim
        · rw [heq2]

/-- A health-panel state whose `previousTrigger` has already observed 5. -/
def c3HealthState : Health.State :=
  { Health.initialState with previousTrigger := some 5 }

/-- Witness for C3: assigning the already-observed trigger 5 schedules zero
refreshes, and assigning the initial null trigger schedules zero. -/
theorem c3_trigger_setter_witness :
    (some 5 = c3HealthState.previousTrigger
      ∧ (Health.setAnalysisTrigger c3HealthState (some 5)).2 = 0)
    ∧ (natTruthy (none : Option Nat) = false
      ∧ (Research.setAnalysisTrigger Research.initialState none).2 = 0) :=
  ⟨⟨rfl,
    (c3_trigger_setter_dedup c3HealthState Research.initialState
      (some 5)).1.2.1 rfl⟩,
   ⟨rfl,
    (c3_trigger_setter_dedup c3HealthState Research.initialState
      none).2.2.2.1 rfl⟩⟩

/-- C4: `handleAnalyze` with no account selected dispatches exactly the
"Please select an account first" error toast and returns the state
unchanged (in particular `analysisTrigger` is unchanged) with no timer;
with an account selected it assigns the current wall-clock timestamp to the
trigger, sets the busy flag, schedules the busy-reset timeout, and running
that timeout clears the busy flag while leaving the trigger at `now`. -/
theorem c4_handleAnalyze_behaviour (s : Shell.State) (now : Nat) :
    (strTruthy s.selectedAccountId = false →
      Shell.handleAnalyze s now
        = (s, [⟨"Error", "Please select an account first", "error"⟩], false))
    ∧ (strTruthy s.selectedAccountId = true →
      (Shell.handleAnalyze s now).1.analysisTrigger = now
      ∧ (Shell.handleAnalyze s now).1.isAnalyzing = true
      ∧ (Shell.handleAnalyze s now).1.selectedAccountId = s.selectedAccountId
      ∧ (Shell.handleAnalyze s now).1.selectedAccountName
          = s.selectedAccountName
      ∧ (Shell.handleAnalyze s now).2.1 = []
      ∧ (Shell.handleAnalyze s now).2.2 = true
      ∧ (Shell.resetIsAnalyzing (Shell.handleAnalyze s now).1).isAnalyzing
          = false
      ∧ (Shell.resetIsAnalyzing (Shell.handleAnalyze s now).1).analysisTrigger
          = now) := by
  constructor
  · intro h
    simp [Shell.handleAnalyze, h]
  · intro h
    simp [Shell.handleAnalyze, Shell.triggerAnalysis, Shell.resetIsAnalyzing, h]

/-- A shell state with an account selected. -/
def c4ShellState : Shell.State :=
  { Shell.initialState with selectedAccountId := some "001xx0000001" }

/-- Witness for C4: the empty-selection branch at the initial state and the
selected branch at a state holding an account id. -/
theorem c4_handleAnalyze_witness :
    (strTruthy Shell.initialState.selectedAccountId = false
      ∧ Shell.handleAnalyze Shell.initialState 42
          = (Shell.initialState,
             [⟨"Error", "Please select an account first", "error"⟩], false))
    ∧ (strTruthy c4ShellState.selectedAccountId = true
      ∧ (Shell.handleAnalyze c4ShellState 42).1.analysisTrigger = 42) :=
  ⟨⟨rfl, (c4_handleAnalyze_behaviour Shell.initialState 42).1 rfl⟩,
   ⟨by decide, ((c4_handleAnalyze_behaviour c4ShellState 42).2 (by decide)).1⟩⟩

/-- C5: in both panels, assigning a new non-empty account identifier that
differs from the stored backing value and from the last identifier that
caused a refresh schedules exactly one deferred refresh (whose fire-time
re-check passes on the resulting state), leaves both trigger fields
untouched, and assigning the same identifier again schedules none. -/
theorem c5_accountId_setter_dedup
    (hs : Health.State) (rs : Research.State) (v : Option String)
    (htv : strTruthy v = true)
    (h1 : v ≠ hs._accountId) (h2 : v ≠ hs.previousAccountId)
    (h3 : v ≠ rs._accountId) (h4 : v ≠ rs.previousAccountId) :
    ((Health.setAccountId hs v).2 = some v
      ∧ Health.accountTaskFires (Health.setAccountId hs v).1 v = true
      ∧ (Health.setAccountId hs v).1._analysisTrigger = hs._analysisTrigger
      ∧ (Health.setAccountId hs v).1.previousTrigger = hs.previousTrigger
      ∧ (Health.setAccountId (Health.setAccountId hs v).1 v).2 = none)
    ∧ ((Research.setAccountId rs v).2 = some v
      ∧ Research.accountTaskFires (Research.setAccountId rs v).1 v = true
      ∧ (Research.setAccountId rs v).1._analysisTrigger = rs._analysisTrigger
      ∧ (Research.setAccountId rs v).1.previousTrigger = rs.previousTrigger
      ∧ (Research.setAccountId (Research.setAccountId rs v).1 v).2 = none) := by
  constructor
  · simp [Health.setAccountId, Health.accountTaskFires, Health.currentAccountId,
      jsOr, htv, h1, h2]
  · simp [Research.setAccountId, Research.accountTaskFires,
      Research.currentAccountId, jsOr, htv, h3, h4]

/-- Witness for C5: assigning the fresh id "001xx0000001" to both panels in
their initial states schedules exactly one refresh each. -/
theorem c5_accountId_setter_witness :
    strTruthy (some "001xx0000001") = true
    ∧ (Health.setAccountId Health.initialState (some "001xx0000001")).2
        = some (some "001xx0000001")
    ∧ (Research.setAccountId Research.initialState (some "001xx0000001")).2
        = some (some "001xx0000001") :=
  ⟨by decide,
   (c5_accountId_setter_dedup Health.initialState Research.initialState
     (some "001xx0000001") (by decide) (by decide) (by decide) (by decide)
     (by decide)).1.1,
   (c5_accountId_setter_dedup Health.initialState Research.initialState
     (some "001xx0000001") (by decide) (by decide) (by decide) (by decide)
     (by decide)).2.1⟩

/-- C6: in both panels, when neither an explicit account id nor an inherited
record id resolves, the refresh routine makes no remote call (it returns no
call argument), immediately sets the local error state with the fixed
message "No account ID provided.", and ends with the loading flag cleared
(and, for the research panel, the message ticker stopped). -/
theorem c6_fail_fast_no_remote_call
    (hs : Health.State) (rs : Research.State)
    (hh : strTruthy (Health.currentAccountId hs) = false)
    (hr : strTruthy (Research.currentAccountId rs) = false) :
    ((Health.handleRefresh hs).2 = none
      ∧ (Health.handleRefresh hs).1.hasError = true
      ∧ (Health.handleRefresh hs).1.errorMessage = "No account ID provided."
      ∧ (Health.handleRefresh hs).1.isLoading = false)
    ∧ ((Research.handleResearch rs).2 = none
      ∧ (Research.handleResearch rs).1.hasError = true
      ∧ (Research.handleResearch rs).1.errorMessage = "No account ID provided."
      ∧ (Research.handleResearch rs).1.isLoading = false
      ∧ (Research.handleResearch rs).1.loadingMessageInterval = false) := by
  constructor
  · simp [Health.handleRefresh, Health.currentAccountId] at hh ⊢
    simp [hh]
  · simp [Research.handleResearch, Research.currentAccountId,
      Research.startLoadingMessages, Research.stopLoadingMessages] at hr ⊢
    simp [hr]

/-- Witness for C6: both panels in their initial states (no account id and
no record id) fail fast without a remote call. -/
theorem c6_fail_fast_witness :
    strTruthy (Health.currentAccountId Health.initialState) = false
    ∧ strTruthy (Research.currentAccountId Research.initialState) = false
    ∧ (Health.handleRefresh Health.initialState).2 = none
    ∧ (Research.handleResearch Research.initialState).2 = none :=
  ⟨by decide, by decide,
   (c6_fail_fast_no_remote_call Health.initialState Research.initialState
     (by decide) (by decide)).1.1,
   (c6_fail_fast_no_remote_call Health.initialState Research.initialState
     (by decide) (by decide)).2.1⟩

/-- The health payload of the C7 scenario. -/
def c7HealthData : Health.HealthData :=
  { healthStatus := some "Excellent"
  , score := 85
  , trend := some "Improving"
  , keyInsights := []
  , recommendedActions := [] }

/-- A metrics record with only `closedWonACV` populated. -/
def c7Metrics (acv : Option ℚ) : Health.Metrics :=
  { closedWonACV := acv
  , closedLostACV := none
  , openCases := none
  , closedCases := none
  , caseCount := none
  , highPriorityOpenCases := none }

/-- C7: the derived display getters are pure functions of the stored
payload.  With score 85 / "Excellent" / "Improving" they yield the 🌟
emoji, color `#4bca81`, the arrow-up trend icon, and gauge offset
`2·70·(1−85/100)` in units of π (the source's `2π·70·(1−0.85)`); the
formatted `closedWonACV` is `$2.5M` for 2 500 000, `$3.5K` for 3 500 and
`$0` for zero or a missing value; and with no payload stored every getter
returns its defined neutral default. -/
theorem c7_display_getters_pure :
    Health.healthEmoji (some c7HealthData) = "🌟"
    ∧ Health.scoreColor (some c7HealthData) = "#4bca81"
    ∧ Health.trendIcon (some c7HealthData) = "utility:arrowup"
    ∧ Health.progressDashOffset (some c7HealthData) = 2 * 70 * (1 - 85 / 100)
    ∧ Health.closedWonACVFormatted (some (c7Metrics (some 2500000))) = "$2.5M"
    ∧ Health.closedWonACVFormatted (some (c7Metrics (some 3500))) = "$3.5K"
    ∧ Health.closedWonACVFormatted (some (c7Metrics (some 0))) = "$0"
    ∧ Health.closedWonACVFormatted (some (c7Metrics none)) = "$0"
    ∧ Health.closedWonACVFormatted none = "$0"
    ∧ Health.healthEmoji none = "❓"
    ∧ Health.healthStatusClass none = "unknown"
    ∧ Health.trendIcon none = "utility:forward"
    ∧ Health.trendClass none = ""
    ∧ Health.scoreColor none = "#dddbda"
    ∧ Health.progressDashOffset none = Health.progressDashArray
    ∧ Health.closedLostACVFormatted none = "$0"
    ∧ Health.caseOpenCount none = 0
    ∧ Health.caseClosedCount none = 0
    ∧ Health.caseTotalCount none = 0
    ∧ Health.caseHighPriorityOpen none = 0
    ∧ Health.showHighPriorityWarning none = false := by
  refine ⟨rfl, ?_, rfl, ?_, ?_, ?_, rfl, rfl, rfl, rfl, rfl, rfl, rfl, rfl,
    rfl, rfl, ?_, ?_, ?_, ?_, ?_⟩
  · show (if (85 : ℚ) ≥ 80 then "#4bca81"
      else if (85 : ℚ) ≥ 60 then "#ffb75d"
      else if (85 : ℚ) ≥ 40 then "#fe9339" else "#ea001e") = "#4bca81"
    norm_num
  · show Health.progressDashArray * (1 - 85 / 100) = 2 * 70 * (1 - 85 / 100)
    rfl
  · show Health.formatCurrency 2500000 = "$2.5M"
    have hge : ((2500000 : ℚ) ≥ 1000000) := by norm_num
    have h : Health.jsRound (2500000 / 1000000 * 10) = 25 := by
      unfold Health.jsRound
      norm_num
    simp only [Health.formatCurrency, Health.toFixed1, h, if_pos hge]
    decide
  · show Health.formatCurrency 3500 = "$3.5K"
    have h : Health.jsRound (3500 / 1000 * 10) = 35 := by
      unfold Health.jsRound
      norm_num
    simp only [Health.formatCurrency, Health.toFixed1, h]
    norm_num
    decide
  · show Health.jsOrQ none 0 = 0
    rfl
  · show Health.jsOrQ none 0 = 0
    rfl
  · show Health.jsOrQ none 0 = 0
    rfl
  · show Health.jsOrQ none 0 = 0
    rfl
  · show decide (Health.caseHighPriorityOpen none > 0) = false
    norm_num [Health.caseHighPriorityOpen, Health.jsOrQ, qTruthy]

/-- A state with a cleared ticker is a fixed point of the rotation
callback: a cleared interval fires no more rotations. -/
theorem rotateTick_inactive (s : Research.State)
    (h : s.loadingMessageInterval = false) : Research.rotateTick s = s := by
  simp [Research.rotateTick, h]

/-- C8: the loading-message interval started at fetch begin is stopped on
every settle path — success, failure, and the missing-account-id fail-fast
path — and on panel teardown; in each resulting state the interval is
cleared and the rotation callback is a no-op (no further rotations). -/
theorem c8_ticker_stopped_on_settle
    (s : Research.State) (res : Option Research.ResearchData)
    (emsg : Option String) :
    (strTruthy (Research.currentAccountId s) = false →
      (Research.handleResearch s).1.loadingMessageInterval = false
      ∧ Research.rotateTick (Research.handleResearch s).1
          = (Research.handleResearch s).1)
    ∧ ((Research.researchResolve s res).1.loadingMessageInterval = false
      ∧ Research.rotateTick (Research.researchResolve s res).1
          = (Research.researchResolve s res).1)
    ∧ ((Research.researchReject s emsg).1.loadingMessageInterval = false
      ∧ Research.rotateTick (Research.researchReject s emsg).1
          = (Research.researchReject s emsg).1)
    ∧ ((Research.disconnectedCallback s).loadingMessageInterval = false
      ∧ Research.rotateTick (Research.disconnectedCallback s)
          = (Research.disconnectedCallback s)) := by
  refine ⟨?_, ?_, ?_, ?_⟩
  · intro h
    have hint : (Research.handleResearch s).1.loadingMessageInterval = false := by
      simp [Research.handleResearch, Research.currentAccountId,
        Research.startLoadingMessages, Research.stopLoadingMessages] at h ⊢
      simp [h]
    exact ⟨hint, rotateTick_inactive _ hint⟩
  · have hint : (Research.researchResolve s res).1.loadingMessageInterval
        = false := by
      simp [Research.researchResolve, Research.stopLoadingMessages]
    exact ⟨hint, rotateTick_inactive _ hint⟩
  · have hint : (Research.researchReject s emsg).1.loadingMessageInterval
        = false := by
      simp [Research.researchReject, Research.stopLoadingMessages]
    exact ⟨hint, rotateTick_inactive _ hint⟩
  · have hint : (Research.disconnectedCallback s).loadingMessageInterval
        = false := by
      simp [Research.disconnectedCallback, Research.stopLoadingMessages]
    exact ⟨hint, rotateTick_inactive _ hint⟩

/-- Witness for C8 at the initial state: the fail-fast path leaves no
active interval, and neither do the settle continuations or teardown. -/
theorem c8_ticker_stopped_witness :
    strTruthy (Research.currentAccountId Research.initialState) = false
    ∧ (Research.handleResearch Research.initialState).1.loadingMessageInterval
        = false
    ∧ (Research.researchResolve Research.initialState
        none).1.loadingMessageInterval = false
    ∧ (Research.disconnectedCallback
        Research.initialState).loadingMessageInterval = false :=
  ⟨by decide,
   ((c8_ticker_stopped_on_settle Research.initialState none none).1
     (by decide)).1,
   (c8_ticker_stopped_on_settle Research.initialState none none).2.1.1,
   (c8_ticker_stopped_on_settle Research.initialState none none).2.2.2.1⟩

/-- C9: when a save invocation's remote call rejects, the research panel
leaves the displayed research data and its fetch state untouched — `data`,
`hasError`, `errorMessage` and `isLoading` are exactly what they were
before the save began — clears the saving busy flag, and reports the
failure through a single error toast. -/
theorem c9_save_failure_leaves_data
    (s : Research.State) (emsg : Option String)
    (hid : strTruthy (Research.currentAccountId s) = true) :
    (Research.handleSaveToRecord s).2.2
      = some ((Research.currentAccountId s).getD "",
              Research.formatDataAsHtml s.data)
    ∧ (Research.saveReject (Research.handleSaveToRecord s).1 emsg).1.data
        = s.data
    ∧ (Research.saveReject (Research.handleSaveToRecord s).1 emsg).1.hasError
        = s.hasError
    ∧ (Research.saveReject (Research.handleSaveToRecord s).1
        emsg).1.errorMessage = s.errorMessage
    ∧ (Research.saveReject (Research.handleSaveToRecord s).1 emsg).1.isLoading
        = s.isLoading
    ∧ (Research.saveReject (Research.handleSaveToRecord s).1 emsg).1.isSaving
        = false
    ∧ ∃ msg, (Research.saveReject (Research.handleSaveToRecord s).1 emsg).2
        = [⟨"Error", msg, "error"⟩] := by
  have hid' : strTruthy (jsOr s._accountId s.recordId) = true := hid
  refine ⟨?_, ?_, ?_, ?_, ?_, ?_, ?_⟩ <;>
    simp [Research.handleSaveToRecord, Research.saveReject,
      Research.currentAccountId, hid']

/-- A research state holding an account id and displayed data. -/
def c9ResearchState : Research.State :=
  { Research.initialState with
      _accountId := some "001xx0000001"
    , data := some scriptPayload }

/-- Witness for C9: a failed save at a populated state clears the busy flag
and leaves the displayed data untouched. -/
theorem c9_save_failure_witness :
    strTruthy (Research.currentAccountId c9ResearchState) = true
    ∧ (Research.saveReject (Research.handleSaveToRecord c9ResearchState).1
        none).1.data = c9ResearchState.data
    ∧ (Research.saveReject (Research.handleSaveToRecord c9ResearchState).1
        none).1.isSaving = false :=
  ⟨by decide,
   (c9_save_failure_leaves_data c9ResearchState none (by decide)).2.1,
   (c9_save_failure_leaves_data c9ResearchState none (by decide)).2.2.2.2.2.1⟩

/-- C10: in both panels the recorded last-seen trigger (`previousTrigger`)
is updated only when a refresh is actually scheduled.  A non-zero trigger
assigned while no account identifier resolves is stored as the current
trigger but not recorded as seen, so re-assigning that same value after an
account identifier has become available does schedule a refresh. -/
theorem c10_previousTrigger_only_on_refresh
    (hs : Health.State) (rs : Research.State) (t : Nat) (a : String)
    (ht : t ≠ 0) (ha : a ≠ "")
    (hacc1 : strTruthy (Health.currentAccountId hs) = false)
    (hprev1 : hs.previousTrigger ≠ some t)
    (hacc2 : strTruthy (Research.currentAccountId rs) = false)
    (hprev2 : rs.previousTrigger ≠ some t) :
    ((∀ v, (Health.setAnalysisTrigger hs v).2 = 0 →
        (Health.setAnalysisTrigger hs v).1.previousTrigger = hs.previousTrigger)
      ∧ (Health.setAnalysisTrigger hs (some t)).2 = 0
      ∧ (Health.setAnalysisTrigger hs (some t)).1.previousTrigger
          = hs.previousTrigger
      ∧ (Health.setAnalysisTrigger hs (some t)).1._analysisTrigger = some t
      ∧ (Health.setAnalysisTrigger
          (Health.setAccountId
            (Health.setAnalysisTrigger hs (some t)).1 (some a)).1
          (some t)).2 = 1)
    ∧ ((∀ v, (Research.setAnalysisTrigger rs v).2 = 0 →
        (Research.setAnalysisTrigger rs v).1.previousTrigger
          = rs.previousTrigger)
      ∧ (Research.setAnalysisTrigger rs (some t)).2 = 0
      ∧ (Research.setAnalysisTrigger rs (some t)).1.previousTrigger
          = rs.previousTrigger
      ∧ (Research.setAnalysisTrigger rs (some t)).1._analysisTrigger = some t
      ∧ (Research.setAnalysisTrigger
          (Research.setAccountId
            (Research.setAnalysisTrigger rs (some t)).1 (some a)).1
          (some t)).2 = 1) := by
  constructor
  · have hnofire : ¬(natTruthy (some t) = true ∧ some t ≠ hs.previousTrigger
        ∧ strTruthy (Health.currentAccountId hs) = true) := by
      intro hc
      rw [hacc1] at hc
      exact absurd hc.2.2 (by simp)
    refine ⟨?_, ?_, ?_, ?_, ?_⟩
    · intro v hv
      rcases health_setTrigger_cases hs v with ⟨heq, _⟩ | ⟨heq, _⟩
      · rw [heq] at hv
        exact absurd hv (by simp)
      · rw [heq]
    · simp [Health.setAnalysisTrigger, hnofire]
    · simp [Health.setAnalysisTrigger, hnofire]
    · simp [Health.setAnalysisTrigger, hnofire]
    · have h1 : (Health.setAnalysisTrigger hs (some t)).1
          = { hs with _analysisTrigger := some t } := by
        simp [Health.setAnalysisTrigger, hnofire]
      rw [h1]
      have h2 : (Health.setAccountId { hs with _analysisTrigger := some t }
          (some a)).1._accountId = some a := by
        by_cases hc : strTruthy (some a) = true
            ∧ (some a : Option String)
                ≠ ({ hs with _analysisTrigger := some t } : Health.State)._accountId
            ∧ (some a : Option String)
                ≠ ({ hs with _analysisTrigger := some t } : Health.State).previousAccountId <;>
          simp [Health.setAccountId, hc]
      have h3 : (Health.setAccountId { hs with _analysisTrigger := some t }
          (some a)).1.previousTrigger = hs.previousTrigger := by
        by_cases hc : strTruthy (some a) = true
            ∧ (some a : Option String)
                ≠ ({ hs with _analysisTrigger := some t } : Health.State)._accountId
            ∧ (some a : Option String)
                ≠ ({ hs with _analysisTrigger := some t } : Health.State).previousAccountId <;>
          simp [Health.setAccountId, hc]
      rcases health_setTrigger_cases
          (Health.setAccountId { hs with _analysisTrigger := some t }
            (some a)).1 (some t) with ⟨heq, _⟩ | ⟨_, hc⟩
      · rw [heq]
      · exact absurd ⟨by simp [natTruthy, ht], by rw [h3]; exact hprev1.symm,
          by simp [Health.currentAccountId, jsOr, h2, strTruthy, ha]⟩ hc
  · have hnofire : ¬(natTruthy (some t) = true ∧ some t ≠ rs.previousTrigger
        ∧ strTruthy (Research.currentAccountId rs) = true) := by
      intro hc
      rw [hacc2] at hc
      exact absurd hc.2.2 (by simp)
    refine ⟨?_, ?_, ?_, ?_, ?_⟩
    · intro v hv
      rcases research_setTrigger_cases rs v with ⟨heq, _⟩ | ⟨heq, _⟩
      · rw [heq] at hv
        exact absurd hv (by simp)
      · rw [heq]
    · simp [Research.setAnalysisTrigger, hnofire]
    · simp [Research.setAnalysisTrigger, hnofire]
    · simp [Research.setAnalysisTrigger, hnofire]
    · have h1 : (Research.setAnalysisTrigger rs (some t)).1
          = { rs with _analysisTrigger := some t } := by
        simp [Research.setAnalysisTrigger, hnofire]
      rw [h1]
      have h2 : (Research.setAccountId { rs with _analysisTrigger := some t }
          (some a)).1._accountId = some a := by
        by_cases hc : strTruthy (some a) = true
            ∧ (some a : Option String)
                ≠ ({ rs with _analysisTrigger := some t } : Research.State)._accountId
            ∧ (some a : Option String)
                ≠ ({ rs with _analysisTrigger := some t } : Research.State).previousAccountId <;>
          simp [Research.setAccountId, hc]
      have h3 : (Research.setAccountId { rs with _analysisTrigger := some t }
          (some a)).1.previousTrigger = rs.previousTrigger := by
        by_cases hc : strTruthy (some a) = true
            ∧ (some a : Option String)
                ≠ ({ rs with _analysisTrigger := some t } : Research.State)._accountId
            ∧ (some a : Option String)
                ≠ ({ rs with _analysisTrigger := some t } : Research.State).previousAccountId <;>
          simp [Research.setAccountId, hc]
      rcases research_setTrigger_cases
          (Research.setAccountId { rs with _analysisTrigger := some t }
            (some a)).1 (some t) with ⟨heq, _⟩ | ⟨_, hc⟩
      · rw [heq]
      · exact absurd ⟨by simp [natTruthy, ht], by rw [h3]; exact hprev2.symm,
          by simp [Research.currentAccountId, jsOr, h2, strTruthy, ha]⟩ hc

/-- Witness for C10 at the initial health and research states: trigger 7 is
assigned before any account resolves, is stored but not recorded as seen,
and re-assigning 7 after the account id "001xx0000001" arrives schedules a
refresh in both panels. -/
theorem c10_previousTrigger_witness :
    (Health.setAnalysisTrigger Health.initialState (some 7)).2 = 0
    ∧ (Health.setAnalysisTrigger
        (Health.setAccountId
          (Health.setAnalysisTrigger Health.initialState (some 7)).1
          (some "001xx0000001")).1
        (some 7)).2 = 1
    ∧ (Research.setAnalysisTrigger Research.initialState (some 7)).2 = 0
    ∧ (Research.setAnalysisTrigger
        (Research.setAccountId
          (Research.setAnalysisTrigger Research.initialState (some 7)).1
          (some "001xx0000001")).1
        (some 7)).2 = 1 :=
  ⟨(c10_previousTrigger_only_on_refresh Health.initialState
      Research.initialState 7 "001xx0000001" (by decide) (by decide)
      (by decide) (by decide) (by decide) (by decide)).1.2.1,
   (c10_previousTrigger_only_on_refresh Health.initialState
      Research.initialState 7 "001xx0000001" (by decide) (by decide)
      (by decide) (by decide) (by decide) (by decide)).1.2.2.2.2,
   (c10_previousTrigger_only_on_refresh Health.initialState
      Research.initialState 7 "001xx0000001" (by decide) (by decide)
      (by decide) (by decide) (by decide) (by decide)).2.2.1,
   (c10_previousTrigger_only_on_refresh Health.initialState
      Research.initialState 7 "001xx0000001" (by decide) (by decide)
      (by decide) (by decide) (by decide) (by decide)).2.2.2.2.2⟩
